import Mathlib

/-!
Shallow embedding of the vizier web-api-async repository (serializers, URL
factory, pycell client, dataset metadata, object-store viztrail repository,
celery route configuration and the container project cache), with theorems
checking the natural-language specification against the code.

Python conventions used throughout the embedding:
* a Python `dict` is an association list with unique keys, insertion order
  preserved; updating an existing key keeps its position,
* raising an exception is returning `Except.error`; functions that mutate
  state before raising return the mutated state next to the error,
* machine integers are `Int`/`Nat` (Python ints are unbounded).
-/

/-- Kinds of Python exceptions raised by the embedded code. -/
inductive PyErr
  | valueError
  | typeError
  | nameError
  | keyError
  | indexError
  deriving DecidableEq, Repr

/-- Scalar Python values stored in dataset cells and annotations. -/
inductive PyVal
  | str (s : String)
  | int (n : Int)
  | null
  deriving DecidableEq, Repr

/-- Lookup in a Python dict modelled as an association list (first match). -/
def alookup {κ α : Type} [DecidableEq κ] : List (κ × α) → κ → Option α
  | [], _ => none
  | (k', v) :: rest, k => if k' = k then some v else alookup rest k

/-- Membership test for a Python dict key. -/
def acontains {κ α : Type} [DecidableEq κ] (m : List (κ × α)) (k : κ) : Bool :=
  (alookup m k).isSome

/-- Insert-or-update for a Python dict: an existing key keeps its position,
a new key is appended (insertion order). -/
def ainsert {κ α : Type} [DecidableEq κ] : List (κ × α) → κ → α → List (κ × α)
  | [], k, v => [(k, v)]
  | (k', v') :: rest, k, v =>
    if k' = k then (k, v) :: rest else (k', v') :: ainsert rest k v

/-- Deletion of a Python dict key. Keys of a dict are unique, so removing
every pair with the key models the `del` statement. -/
def adelete {κ α : Type} [DecidableEq κ] : List (κ × α) → κ → List (κ × α)
  | [], _ => []
  | p :: rest, k => if p.1 = k then adelete rest k else p :: adelete rest k

/-- Adding an element to a Python set (sets modelled as duplicate-free lists). -/
def sinsert (s : List String) (x : String) : List String :=
  if x ∈ s then s else s ++ [x]

/-- Python str.lower(), mapping each character to lower case. -/
def pyLower (s : String) : String :=
  ⟨s.data.map Char.toLower⟩

/-- First-some choice on options, used to state the last-write-wins property
of the routing table. -/
def orElseOpt {α : Type} (a b : Option α) : Option α :=
  match a with
  | some x => some x
  | none => b

/-- Embedding of the class DatasetColumn (src/vizier/datastore/dataset.py, lines
25-47): a column has only an identifier (default -1) and a name. This copy of
the class accepts no data_type argument. -/
structure DatasetColumn where
  identifier : Int
  name : String
  deriving DecidableEq, Repr

/-- Embedding of the class DatasetDescriptor (src/vizier/datastore/dataset.py,
lines 59-86): identifier, columns and row count. -/
structure DatasetDescriptor where
  identifier : String
  columns : List DatasetColumn
  row_count : Int
  deriving DecidableEq, Repr

/-- Embedding of the class DatasetRow (src/vizier/datastore/dataset.py, lines
261-283): identifier (default -1), values, and cell annotation flags that
default to one False per value. -/
structure DatasetRow where
  identifier : Int
  values : List PyVal
  cell_annotations : List Bool
  deriving DecidableEq, Repr

/-- The constructor call DatasetRow(identifier=i, values=vs) with the default
annotations=None (src/vizier/datastore/dataset.py, line 283). -/
def DatasetRow.make (identifier : Int) (values : List PyVal) : DatasetRow :=
  ⟨identifier, values, List.replicate values.length false⟩

/-- JSON-like values exchanged by the serializers. -/
inductive JVal
  | str (s : String)
  | int (n : Int)
  | arr (xs : List JVal)
  | obj (fields : List (String × JVal))

/-- Modelled from the spec: the module vizier.api.serialize.labels is not in
src (only its uses are). Its label constants follow the camelCase wire format
of section 6 of the spec (projectId, packageId, commandId, ...). Only the
labels used by the embedded serializers are modelled. -/
def labels.ID : String := "id"

/-- Modelled from the spec: serialization label for names. -/
def labels.NAME : String := "name"

/-- Modelled from the spec: serialization label for a column data type. -/
def labels.DATATYPE : String := "type"

/-- Modelled from the spec: serialization label for the column list. -/
def labels.COLUMNS : String := "columns"

/-- Modelled from the spec: serialization label for the row count. -/
def labels.ROWCOUNT : String := "rowCount"

/-- Embedding of serialize.DATASET_DESCRIPTOR (src/vizier/api/serialize/dataset.py,
lines 24-45): the column dictionaries carry only the id and name labels (no
data type), and the row count is stored under the literal key rows. -/
def DATASET_DESCRIPTOR (dataset : DatasetDescriptor) (name : String) : JVal :=
  JVal.obj [
    (labels.ID, JVal.str dataset.identifier),
    (labels.NAME, JVal.str name),
    ("columns", JVal.arr (dataset.columns.map (fun col =>
      JVal.obj [(labels.ID, JVal.int col.identifier),
                (labels.NAME, JVal.str col.name)]))),
    ("rows", JVal.int dataset.row_count)
  ]

/-- Python dictionary subscription obj[k]: KeyError when the key is absent,
TypeError when the value is not a dictionary. -/
def jget (v : JVal) (k : String) : Except PyErr JVal :=
  match v with
  | JVal.obj fields =>
    match alookup fields k with
    | some x => Except.ok x
    | none => Except.error PyErr.keyError
  | _ => Except.error PyErr.typeError

/-- Embedding of a call DatasetColumn(identifier=..., name=..., data_type=...).
The class DatasetColumn in src/vizier/datastore/dataset.py (line 36) accepts
only identifier and name, so passing the keyword argument data_type raises
TypeError in Python; the arguments are evaluated but the call never returns. -/
def DatasetColumn_data_type_call {α β γ : Type} (_identifier : α) (_name : β)
    (_data_type : γ) : Except PyErr DatasetColumn :=
  Except.error PyErr.typeError

/-- Embedding of the per-column body of deserialize.DATASET
(src/vizier/api/serialize/deserialize.py, lines 43-48): subscript the column
dictionary at the id, name and data-type labels (in keyword-argument order),
then call the DatasetColumn constructor with a data_type keyword. -/
def DATASET_column (col : JVal) : Except PyErr DatasetColumn := do
  let i ← jget col labels.ID
  let n ← jget col labels.NAME
  let t ← jget col labels.DATATYPE
  DatasetColumn_data_type_call i n t

/-- Embedding of deserialize.DATASET (src/vizier/api/serialize/deserialize.py,
lines 29-50): build a DatasetDescriptor from the id label, the column list
under the columns label and the row count under the rowCount label. -/
def DATASET (obj : JVal) : Except PyErr DatasetDescriptor := do
  let ident ← jget obj labels.ID
  let colsJ ← jget obj labels.COLUMNS
  let cols ← match colsJ with
    | JVal.arr xs => xs.mapM DATASET_column
    | _ => Except.error PyErr.typeError
  let rc ← jget obj labels.ROWCOUNT
  match ident, rc with
  | JVal.str s, JVal.int n => Except.ok ⟨s, cols, n⟩
  | _, _ => Except.error PyErr.typeError

/-- Embedding of the UrlFactory state (src/vizier/api/routes.py, lines 27-45). -/
structure UrlFactory where
  base_url : String
  api_doc_url : Option String

/-- The while loop of UrlFactory.__init__ that strips trailing slashes from
the base url (src/vizier/api/routes.py, lines 41-45); the fuel argument is the
string length, which bounds the number of iterations. -/
def dropSlashes : Nat → String → String
  | 0, s => s
  | n + 1, s => if s.endsWith "/" then dropSlashes n (s.dropRight 1) else s

/-- Embedding of UrlFactory.__init__ (src/vizier/api/routes.py, lines 30-45). -/
def UrlFactory.init (base_url : String) (api_doc_url : Option String) : UrlFactory :=
  { base_url := dropSlashes base_url.length base_url, api_doc_url := api_doc_url }

/-- Embedding of UrlFactory.list_projects (src/vizier/api/routes.py, line 117). -/
def UrlFactory.list_projects (uf : UrlFactory) : String :=
  uf.base_url ++ "/projects"

/-- Embedding of UrlFactory.get_project (src/vizier/api/routes.py, line 106). -/
def UrlFactory.get_project (uf : UrlFactory) (project_id : String) : String :=
  uf.list_projects ++ "/" ++ project_id

/-- Embedding of UrlFactory.get_dataset (src/vizier/api/routes.py, lines
314-328). The body evaluates self.get_project(proejct_id), but proejct_id is
an unbound name (the parameter is project_id and no such global exists in the
module), so every call raises NameError before any url is built. -/
def UrlFactory.get_dataset (_uf : UrlFactory) (_project_id _dataset_id : String) :
    Except PyErr String :=
  Except.error PyErr.nameError

/-- Embedding of UrlFactory.download_dataset (src/vizier/api/routes.py, lines
354-368). The body evaluates self.get_dataset(proejct_id, dataset_id); the
argument proejct_id is an unbound name, so every call raises NameError. -/
def UrlFactory.download_dataset (_uf : UrlFactory) (_project_id _dataset_id : String) :
    Except PyErr String :=
  Except.error PyErr.nameError

/-- One dataset held by the datastore: its schema and rows. -/
structure StoredDataset where
  columns : List DatasetColumn
  rows : List DatasetRow
  deriving DecidableEq, Repr

/-- Modelled from the spec: the concrete datastore behind the abstract
Datastore interface (src/vizier/datastore/base.py) is not in src. Spec
section 3: datasets are identified by an opaque unique id assigned by the
datastore, and the core never mutates a dataset in place — a write creates a
new dataset under a fresh identifier. Identifiers are modelled as naturals
drawn from a counter. -/
structure Datastore where
  datasets : List (Nat × StoredDataset)
  counter : Nat
  deriving DecidableEq, Repr

/-- All identifiers handed out so far are below the counter, so the next
identifier is fresh. -/
def Datastore.wf (store : Datastore) : Prop :=
  ∀ p ∈ store.datasets, p.1 < store.counter

/-- Modelled from the spec: Datastore.create_dataset stores a new dataset
under a fresh identifier and returns it. -/
def Datastore.create_dataset (store : Datastore) (columns : List DatasetColumn)
    (rows : List DatasetRow) : Datastore × Nat :=
  ({ datasets := store.datasets ++ [(store.counter, ⟨columns, rows⟩)],
     counter := store.counter + 1 }, store.counter)

/-- Modelled from the spec: Datastore.get_dataset returns the dataset with the
given identifier, or None. -/
def Datastore.get_dataset (store : Datastore) (identifier : Nat) : Option StoredDataset :=
  alookup store.datasets identifier

/-- Embedding of max_object_id (src/vizier/datastore/base.py, lines 338-355):
the maximum of a list of identifiers, starting from -1. -/
def max_object_id (ids : List Int) : Int :=
  ids.foldl (fun max_id i => if i > max_id then i else max_id) (-1)

/-- The handle methods max_column_id/max_row_id called by
VizierDBClient.update_dataset are not defined on the DatasetHandle copy in
src; they are modelled by the helpers max_column_id/max_row_id that are in
src/vizier/datastore/base.py (lines 323-369): maximum column identifier. -/
def StoredDataset.max_column_id (ds : StoredDataset) : Int :=
  max_object_id (ds.columns.map (fun c => c.identifier))

/-- Maximum row identifier of a stored dataset (src/vizier/datastore/base.py,
lines 357-369). -/
def StoredDataset.max_row_id (ds : StoredDataset) : Int :=
  max_object_id (ds.rows.map (fun r => r.identifier))

/-- Modelled from the spec: the function is_valid_name of vizier.core.util is
not in src. Per its callers a valid dataset name contains only letters,
digits, hyphen, underscore or blank, with at least one letter or digit. -/
def is_valid_name (name : String) : Bool :=
  name.toList.all (fun c => c.isAlphanum || c = '_' || c = '-' || c = ' ')
    && name.toList.any (fun c => c.isAlphanum)

/-- Modelled from the spec: the Column class of the newer pycell client
dataset module is not in src; from its use in update_dataset it carries a
column id and a name (rendered by str). A pandas column label is either a
plain name or such a Column object. -/
inductive PyColumnRef
  | named (name : String)
  | colObj (colid : Int) (colname : String)
  deriving DecidableEq, Repr

/-- Rendering str(col) of a pandas column label or Column object. -/
def PyColumnRef.toStr : PyColumnRef → String
  | PyColumnRef.named s => s
  | PyColumnRef.colObj _ n => n

/-- Modelled from the spec: the surface of a pandas DataFrame consumed by the
client — column labels, their dtypes (pandas keeps one dtype per column) and
the rows as (index label, values) pairs produced by iterrows(). -/
structure DataFrame where
  columns : List PyColumnRef
  dtypes : List String
  rows : List (Int × List PyVal)
  deriving DecidableEq, Repr

/-- Modelled from the spec: the function coltype of the newer pycell client
dataset module (not in src) maps a pandas dtype to a vizier type name. -/
def coltype (dtype : String) : String :=
  if dtype = "int64" then "int"
  else if dtype = "float64" then "real"
  else if dtype = "bool" then "bool"
  else "varchar"

/-- Embedding of the VizierDBClient state
(src/vizier/engine/packages/pycell/client/base.py, lines 47-69): dataset and
dataobject name bindings, tracked reads/writes/deletes and modified
descriptors. Dataset names are keyed lowercase. -/
structure VizierDBClient where
  datasets : List (String × Nat)
  dataobjects : List (String × String)
  source : String
  descriptors : List (Nat × StoredDataset)
  read : List String
  write : List String
  delete : Option (List String)
  deriving DecidableEq, Repr

/-- Embedding of VizierDBClient.has_dataset_identifier (base.py, lines
264-277): dataset names are case insensitive. -/
def VizierDBClient.has_dataset_identifier (c : VizierDBClient) (name : String) : Bool :=
  acontains c.datasets (pyLower name)

/-- Embedding of VizierDBClient.get_dataset_identifier (base.py, lines
244-262): ValueError when the lowercased name is unbound. -/
def VizierDBClient.get_dataset_identifier (c : VizierDBClient) (name : String) :
    Except PyErr Nat :=
  match alookup c.datasets (pyLower name) with
  | none => Except.error PyErr.valueError
  | some i => Except.ok i

/-- Embedding of VizierDBClient.set_dataset_identifier (base.py, lines
336-350): bind the lowercased name and record the write. -/
def VizierDBClient.set_dataset_identifier (c : VizierDBClient) (name : String)
    (identifier : Nat) : VizierDBClient :=
  { c with datasets := ainsert c.datasets (pyLower name) identifier,
           write := sinsert c.write (pyLower name) }

/-- Embedding of VizierDBClient.remove_dataset_identifier (base.py, lines
289-305): delete the binding of the lowercased name, ValueError if absent. -/
def VizierDBClient.remove_dataset_identifier (c : VizierDBClient) (name : String) :
    VizierDBClient × Except PyErr Unit :=
  match alookup c.datasets (pyLower name) with
  | none => (c, Except.error PyErr.valueError)
  | some _ => ({ c with datasets := adelete c.datasets (pyLower name) }, Except.ok ())

/-- Embedding of VizierDBClient.drop_dataset (base.py, lines 196-218): record
the read unless written, record the deletion under the original name, then
remove the binding (which raises if the dataset is unknown). -/
def VizierDBClient.drop_dataset (c : VizierDBClient) (name : String) :
    VizierDBClient × Except PyErr Unit :=
  let c1 := if (pyLower name) ∈ c.write then c
            else { c with read := sinsert c.read (pyLower name) }
  let c2 := { c1 with delete := some (sinsert (c1.delete.getD []) name) }
  c2.remove_dataset_identifier name

/-- The column loop of VizierDBClient.create_dataset (base.py, lines 169-179):
for column index c the name is str(columns[c]) and the constructor call
DatasetColumn(identifier=c, name=..., data_type=coltype(dtypes[c])) is made,
which raises TypeError against the DatasetColumn class in src. -/
def create_dataset_columns (dtypes : List String) :
    Nat → List PyColumnRef → Except PyErr (List DatasetColumn)
  | _, [] => Except.ok []
  | c, colref :: rest => do
    let dc ← DatasetColumn_data_type_call (Int.ofNat c) colref.toStr
      (coltype (dtypes.getD c "object"))
    let more ← create_dataset_columns dtypes (c + 1) rest
    Except.ok (dc :: more)

/-- Embedding of VizierDBClient.create_dataset (base.py, lines 143-194):
duplicate names raise ValueError (after recording the read), invalid names
raise ValueError, then columns and rows are built and the dataset is written
to the datastore and bound to the name. -/
def VizierDBClient.create_dataset (c : VizierDBClient) (store : Datastore)
    (name : String) (df : DataFrame) : VizierDBClient × Datastore × Except PyErr Nat :=
  if c.has_dataset_identifier name then
    ({ c with read := sinsert c.read (pyLower name) }, store, Except.error PyErr.valueError)
  else if is_valid_name name = false then
    (c, store, Except.error PyErr.valueError)
  else
    match create_dataset_columns df.dtypes 0 df.columns with
    | Except.error e => (c, store, Except.error e)
    | Except.ok columns =>
      let rows := (df.rows.enum.map (fun p => DatasetRow.make (Int.ofNat p.1) p.2.2))
      let (store', ds_id) := store.create_dataset columns rows
      let c' := c.set_dataset_identifier name ds_id
      let c'' := { c' with descriptors := ainsert c'.descriptors ds_id ⟨columns, rows⟩ }
      (c'', store', Except.ok ds_id)

/-- Embedding of VizierDBClient.rename_dataset (base.py, lines 306-335):
record read and write, reject an existing or invalid new name, look up the
identifier, drop the old binding and bind the new name to the identifier. -/
def VizierDBClient.rename_dataset (c : VizierDBClient) (name new_name : String) :
    VizierDBClient × Except PyErr Unit :=
  let c1 := if (pyLower name) ∈ c.write then c
            else { c with read := sinsert c.read (pyLower name) }
  let c2 := { c1 with write := sinsert c1.write (pyLower new_name) }
  if c2.has_dataset_identifier new_name then (c2, Except.error PyErr.valueError)
  else if is_valid_name new_name = false then (c2, Except.error PyErr.valueError)
  else
    match alookup c2.datasets (pyLower name) with
    | none => (c2, Except.error PyErr.valueError)
    | some identifier =>
      match c2.drop_dataset name with
      | (c3, Except.ok _) => (c3.set_dataset_identifier new_name identifier, Except.ok ())
      | (c3, Except.error e) => (c3, Except.error e)

/-- The column loop of VizierDBClient.update_dataset (base.py, lines 385-404):
plain labels are wrapped into Column objects with the running counter,
duplicate or negative column identifiers raise ValueError, and the
DatasetColumn constructor call with data_type raises TypeError against the
DatasetColumn class in src. -/
def update_dataset_columns (dtypes : List String) (column_counter : Int)
    (colids : List Int) : Nat → List PyColumnRef → Except PyErr (List DatasetColumn)
  | _, [] => Except.ok []
  | c, colref :: rest =>
    let wrapped : Int × String × Int :=
      match colref with
      | PyColumnRef.colObj i n => (i, n, column_counter)
      | PyColumnRef.named n => (column_counter, n, column_counter + 1)
    let colid := wrapped.1
    if colid ∈ colids then Except.error PyErr.valueError
    else if colid < 0 then Except.error PyErr.valueError
    else do
      let dc ← DatasetColumn_data_type_call colid wrapped.2.1
        (coltype (dtypes.getD c "object"))
      let more ← update_dataset_columns dtypes wrapped.2.2 (colid :: colids) (c + 1) rest
      Except.ok (dc :: more)

/-- The row loop of VizierDBClient.update_dataset (base.py, lines 405-417):
negative index labels are replaced by the running counter, duplicate row
identifiers raise ValueError, and each row becomes a DatasetRow. -/
def update_dataset_rows (row_counter : Int) (rowids : List Int) :
    List (Int × List PyVal) → Except PyErr (List DatasetRow)
  | [] => Except.ok []
  | (rowid, values) :: rest =>
    let assigned : Int × Int :=
      if rowid < 0 then (row_counter, row_counter + 1) else (rowid, row_counter)
    if assigned.1 ∈ rowids then Except.error PyErr.valueError
    else
      match update_dataset_rows assigned.2 (assigned.1 :: rowids) rest with
      | Except.error e => Except.error e
      | Except.ok more => Except.ok (DatasetRow.make assigned.1 values :: more)

/-- Embedding of VizierDBClient.update_dataset (base.py, lines 351-430): look
up the identifier and the source dataset, build new columns and rows with
identifiers continuing past the source maxima, create a new dataset in the
datastore and rebind the name to its identifier. -/
def VizierDBClient.update_dataset (c : VizierDBClient) (store : Datastore)
    (name : String) (df : DataFrame) : VizierDBClient × Datastore × Except PyErr Nat :=
  match alookup c.datasets (pyLower name) with
  | none => (c, store, Except.error PyErr.valueError)
  | some identifier =>
    match store.get_dataset identifier with
    | none =>
      ({ c with read := sinsert c.read (pyLower name) }, store, Except.error PyErr.valueError)
    | some source_dataset =>
      match update_dataset_columns df.dtypes (source_dataset.max_column_id + 1) [] 0 df.columns with
      | Except.error e => (c, store, Except.error e)
      | Except.ok columns =>
        match update_dataset_rows (source_dataset.max_row_id + 1) [] df.rows with
        | Except.error e => (c, store, Except.error e)
        | Except.ok rows =>
          let (store', ds_id) := store.create_dataset columns rows
          let c' := c.set_dataset_identifier name ds_id
          let c'' := { c' with descriptors := ainsert c'.descriptors ds_id ⟨columns, rows⟩ }
          (c'', store', Except.ok ds_id)

/-- Modelled from the spec: the OSViztrailHandle class is not in src. It is
the handle for a loaded viztrail kept in the repository's in-memory map; for
the repository claim only its identifier matters. -/
structure OSViztrailHandle where
  identifier : String
  deriving DecidableEq, Repr

/-- Embedding of the OSViztrailRepository state
(src/vizier/viztrail/driver/objectstore/repository.py): the in-memory map from
viztrail identifier to handle, the content of the persisted viztrails index
object, and the paths of the other persisted objects (the per-viztrail
folders' contents) in the object store. -/
structure OSViztrailRepository where
  base_path : String
  viztrails : List (String × OSViztrailHandle)
  viztrails_index : List String
  store_objects : List String
  deriving DecidableEq, Repr

/-- Modelled from the spec: OSViztrailHandle.delete_viztrail (not in src)
deletes the viztrail's materialized resources recursively (spec section 3,
lifecycle: deleted recursively) — every persisted object below the viztrail's
folder base_path/id/ is removed. -/
def deleteViztrailFolder (base_path : String) (viztrail_id : String)
    (objects : List String) : List String :=
  objects.filter (fun p => ¬ (base_path ++ "/" ++ viztrail_id ++ "/").isPrefixOf p)

/-- Embedding of OSViztrailRepository.delete_viztrail
(src/vizier/viztrail/driver/objectstore/repository.py, lines 139-166): if the
identifier is in the map, delete the handle's files, remove the map entry and
write the updated index; otherwise return False and change nothing. -/
def OSViztrailRepository.delete_viztrail (repo : OSViztrailRepository)
    (viztrail_id : String) : Bool × OSViztrailRepository :=
  if acontains repo.viztrails viztrail_id then
    let objects' := deleteViztrailFolder repo.base_path viztrail_id repo.store_objects
    let vts' := adelete repo.viztrails viztrail_id
    (true, { repo with viztrails := vts',
                       viztrails_index := vts'.map (fun p => p.1),
                       store_objects := objects' })
  else (false, repo)

/-- Embedding of ROUTE_COMMAND (src/vizier/config/engine/celery.py, line 20). -/
def ROUTE_COMMAND : String := "commandId"

/-- Embedding of ROUTE_PACKAGE (src/vizier/config/engine/celery.py, line 21). -/
def ROUTE_PACKAGE : String := "packageId"

/-- Embedding of ROUTE_QUEUE (src/vizier/config/engine/celery.py, line 22). -/
def ROUTE_QUEUE : String := "queue"

/-- Nested routing dictionary: package id to command id to queue name. -/
abbrev RoutesDict : Type := List (String × List (String × String))

/-- The assignment routes[package_id][command_id] = queue of config_routes
(src/vizier/config/engine/celery.py, lines 54-57), creating the inner
dictionary when the package id is new. -/
def routes_set (routes : RoutesDict) (p c q : String) : RoutesDict :=
  ainsert routes p (ainsert ((alookup routes p).getD []) c q)

/-- Reading routes[p][c] from the nested routing dictionary. -/
def routes_get (routes : RoutesDict) (p c : String) : Option String :=
  (alookup routes p).bind (fun inner => alookup inner c)

/-- The loop of config_routes (src/vizier/config/engine/celery.py, lines
47-57): each element must contain the packageId, commandId and queue keys
(otherwise ValueError) and is then entered into the nested dictionary. -/
def config_routes_loop (routes : RoutesDict) :
    List (List (String × String)) → Except PyErr RoutesDict
  | [] => Except.ok routes
  | rt :: rest =>
    match alookup rt ROUTE_PACKAGE with
    | none => Except.error PyErr.valueError
    | some p =>
      match alookup rt ROUTE_COMMAND with
      | none => Except.error PyErr.valueError
      | some c =>
        match alookup rt ROUTE_QUEUE with
        | none => Except.error PyErr.valueError
        | some q => config_routes_loop (routes_set routes p c q) rest

/-- Embedding of config_routes (src/vizier/config/engine/celery.py, lines
25-58). -/
def config_routes (elements : List (List (String × String))) : Except PyErr RoutesDict :=
  config_routes_loop [] elements

/-- An element of elements has the three required route keys. -/
def hasRouteKeys (rt : List (String × String)) : Prop :=
  (alookup rt ROUTE_PACKAGE).isSome ∧ (alookup rt ROUTE_COMMAND).isSome
    ∧ (alookup rt ROUTE_QUEUE).isSome

instance (rt : List (String × String)) : Decidable (hasRouteKeys rt) := by
  unfold hasRouteKeys
  infer_instance

/-- Specification-side description of the claim: the queue of the last element
whose packageId and commandId match (p, c); later elements overwrite earlier
ones. -/
def lastQueue : List (List (String × String)) → String → String → Option String
  | [], _, _ => none
  | rt :: rest, p, c =>
    match lastQueue rest p c with
    | some q => some q
    | none =>
      match alookup rt ROUTE_PACKAGE, alookup rt ROUTE_COMMAND, alookup rt ROUTE_QUEUE with
      | some p', some c', some q => if p' = p ∧ c' = c then some q else none
      | _, _, _ => none

/-- Modelled from the spec: one entry of the container-backend manifest, a
JSON array of (projectId, url, port, containerId) objects (spec section 6). -/
structure ContainerEntry where
  projectId : String
  url : String
  port : Int
  containerId : String
  deriving DecidableEq, Repr

/-- Modelled from the spec: a project handle served by the container project
cache, exposing the container endpoint fields checked by the test
(src/tests/engine/project/test_container_project_cache.py, lines 32-68). -/
structure ContainerProjectHandle where
  project_id : String
  container_api : String
  port : Int
  container_id : String
  deriving DecidableEq, Repr

/-- Modelled from the spec: the ContainerProjectCache class
(vizier/engine/project/cache/container.py) is not in src. Per spec section 4.2
the cache reads the persisted manifest and backs each listed project by its
remote worker at (url, port, container id); it is read-through and never
starts containers itself. -/
structure ContainerProjectCache where
  projects : List ContainerProjectHandle
  deriving DecidableEq, Repr

/-- Modelled from the spec: building the cache over a manifest creates one
project handle per manifest entry. -/
def ContainerProjectCache.init (manifest : List ContainerEntry) : ContainerProjectCache :=
  ⟨manifest.map (fun e => ⟨e.projectId, e.url, e.port, e.containerId⟩)⟩

/-- Modelled from the spec: list_projects returns all cached projects. -/
def ContainerProjectCache.list_projects (cache : ContainerProjectCache) :
    List ContainerProjectHandle :=
  cache.projects

/-- Modelled from the spec: get_project returns the cached project with the
given identifier. -/
def ContainerProjectCache.get_project (cache : ContainerProjectCache)
    (project_id : String) : Option ContainerProjectHandle :=
  cache.projects.find? (fun pr => pr.project_id = project_id)

/-- Modelled from the spec: the classes ColumnAnnotation, RowAnnotation and
CellAnnotation of vizier.datastore.annotation.base are not in src; their
fields are those of their construction sites in DatasetMetadata.add
(src/vizier/datastore/annotation/dataset.py, lines 50-82). -/
structure ColumnAnnotation where
  key : String
  value : PyVal
  column_id : Int
  deriving DecidableEq, Repr

/-- Modelled from the spec: row annotation data class (key, value, row id). -/
structure RowAnnotation where
  key : String
  value : PyVal
  row_id : Int
  deriving DecidableEq, Repr

/-- Modelled from the spec: cell annotation data class (key, value, column
id, row id). -/
structure CellAnnotation where
  key : String
  value : PyVal
  column_id : Int
  row_id : Int
  deriving DecidableEq, Repr

/-- Embedding of the DatasetMetadata state
(src/vizier/datastore/annotation/dataset.py, lines 29-48): one annotation list
per resource type. -/
structure DatasetMetadata where
  columns : List ColumnAnnotation
  rows : List RowAnnotation
  cells : List CellAnnotation
  deriving DecidableEq, Repr

/-- Embedding of DatasetMetadata.for_column
(src/vizier/datastore/annotation/dataset.py, lines 191-207): the column
annotations whose column id matches. -/
def DatasetMetadata.for_column (m : DatasetMetadata) (column_id : Int) :
    List ColumnAnnotation :=
  m.columns.filter (fun anno => anno.column_id = column_id)

/-- Embedding of DatasetMetadata.for_row (dataset.py, lines 209-225). -/
def DatasetMetadata.for_row (m : DatasetMetadata) (row_id : Int) : List RowAnnotation :=
  m.rows.filter (fun anno => anno.row_id = row_id)

/-- Embedding of DatasetMetadata.for_cell (dataset.py, lines 171-189). -/
def DatasetMetadata.for_cell (m : DatasetMetadata) (column_id row_id : Int) :
    List CellAnnotation :=
  m.cells.filter (fun anno => anno.column_id = column_id ∧ anno.row_id = row_id)

/-- The candidate-collection loops of DatasetMetadata.remove (dataset.py,
lines 278-297): the indices (counted from the offset) of the elements that
match the resource identifier, in ascending order. -/
def candAux {α : Type} (p : α → Bool) : List α → Nat → List Nat
  | [], _ => []
  | x :: rest, i =>
    if p x then i :: candAux p rest (i + 1) else candAux p rest (i + 1)

/-- The key/value filter applied to the candidates (dataset.py, lines
298-313): with neither key nor value all candidates are deleted, otherwise
candidates are kept when the given key and/or value match. -/
def annoFilter (key : Option String) (value : Option PyVal) (k : String) (v : PyVal) :
    Bool :=
  match key, value with
  | none, none => true
  | none, some vv => v = vv
  | some kk, none => k = kk
  | some kk, some vv => k = kk && v = vv

/-- Filtering the candidate indices by the element they point at (dataset.py,
lines 300-313). All candidate indices are in range, so the out-of-range arm is
never taken. -/
def delIdxFilter {α : Type} (xs : List α) (q : α → Bool) (idxs : List Nat) : List Nat :=
  idxs.filter (fun i => match xs.get? i with | some a => q a | none => false)

/-- The deletion loop of DatasetMetadata.remove (dataset.py, lines 314-318):
elements are deleted at the collected indices, shifting each subsequent index
down by the number of elements already removed. -/
def delLoop {α : Type} : List α → List Nat → Nat → List α
  | xs, [], _ => xs
  | xs, i :: rest, j => delLoop (xs.eraseIdx (i - j)) rest (j + 1)

/-- Removal of the matching annotations from one of the three lists: collect
candidate indices, filter by key/value, delete with index adjustment. -/
def removeFromList {α : Type} (p : α → Bool) (q : α → Bool) (xs : List α) : List α :=
  delLoop xs (delIdxFilter xs q (candAux p xs 0)) 0

/-- Embedding of DatasetMetadata.remove
(src/vizier/datastore/annotation/dataset.py, lines 262-326): ValueError
without a resource identifier; otherwise the matching annotations of the
selected resource list are removed, filtered by key and value when given. -/
def DatasetMetadata.remove (m : DatasetMetadata) (key : Option String)
    (value : Option PyVal) (column_id : Option Int) (row_id : Option Int) :
    Except PyErr DatasetMetadata :=
  match column_id, row_id with
  | none, none => Except.error PyErr.valueError
  | some cid, none =>
    let cols := removeFromList (fun a => a.column_id = cid)
      (fun a => annoFilter key value a.key a.value) m.columns
    Except.ok { m with columns := cols }
  | none, some rid =>
    let rws := removeFromList (fun a => a.row_id = rid)
      (fun a => annoFilter key value a.key a.value) m.rows
    Except.ok { m with rows := rws }
  | some cid, some rid =>
    let cls := removeFromList (fun a => a.column_id = cid && a.row_id = rid)
      (fun a => annoFilter key value a.key a.value) m.cells
    Except.ok { m with cells := cls }

/-- A column reference passed to get_cell/get_value: a Python int or str. -/
inductive ColRef
  | int (i : Int)
  | str (s : String)
  deriving DecidableEq, Repr

/-- Embedding of collabel_2_index (src/vizier/datastore/dataset.py, lines
292-315): spreadsheet-style column labels, -1 on any non A-Z character. -/
def collabel_2_index_aux : Int → List Char → Int
  | num, [] => num
  | num, ch :: rest =>
    if 'A' ≤ ch ∧ ch ≤ 'Z' then
      collabel_2_index_aux (num * 26 + (Int.ofNat ch.toNat - Int.ofNat 'A'.toNat) + 1) rest
    else -1

/-- Embedding of collabel_2_index over a string label. -/
def collabel_2_index (label : String) : Int :=
  collabel_2_index_aux 0 label.toList

/-- The name-matching loop of get_column_index (src/vizier/datastore/dataset.py,
lines 355-370): -1 while no match, the index of the unique match, -2 (with
break) on a second match. -/
def name_match_aux (target : String) : List DatasetColumn → Nat → Int → Int
  | [], _, acc => acc
  | col :: rest, i, acc =>
    if pyLower col.name = pyLower target then
      if acc = -1 then name_match_aux target rest (i + 1) (Int.ofNat i)
      else -2
    else name_match_aux target rest (i + 1) acc

/-- Embedding of get_column_index (src/vizier/datastore/dataset.py, lines
317-384): int references are range-checked; string references are matched by
name, then by spreadsheet label; failures raise ValueError. -/
def get_column_index (columns : List DatasetColumn) (column_id : ColRef) :
    Except PyErr Int :=
  match column_id with
  | ColRef.int cid =>
    if 0 ≤ cid ∧ cid < Int.ofNat columns.length then Except.ok cid
    else Except.error PyErr.valueError
  | ColRef.str s =>
    let ni := name_match_aux s columns 0 (-1)
    let ni2 := if ni < 0 then
        let li := collabel_2_index s
        if li > 0 ∧ li ≤ Int.ofNat columns.length then li - 1 else ni
      else ni
    if ni2 ≥ 0 then Except.ok ni2
    else Except.error PyErr.valueError

/-- A mutable dataset row of the pycell client
(src/vizier/engine/packages/pycell/client/dataset.py, lines 295-321); the
back-reference to the owning client is passed explicitly to get_value. -/
structure MutRow where
  identifier : Int
  values : List PyVal
  deriving DecidableEq, Repr

/-- Embedding of the DatasetClient state with rows loaded
(src/vizier/engine/packages/pycell/client/dataset.py, lines 38-61). -/
structure DatasetClient where
  identifier : Option Nat
  columns : List DatasetColumn
  rows : List MutRow
  deriving DecidableEq, Repr

/-- Embedding of MutableDatasetRow.get_value
(src/vizier/engine/packages/pycell/client/dataset.py, lines 344-356): resolve
the column index against the owning client, then subscript the values list
(an out-of-range subscript is Python's IndexError). -/
def MutRow.get_value (r : MutRow) (client : DatasetClient) (column : ColRef) :
    Except PyErr PyVal :=
  match get_column_index client.columns column with
  | Except.error e => Except.error e
  | Except.ok ci =>
    match r.values.get? ci.toNat with
    | some v => Except.ok v
    | none => Except.error PyErr.indexError

/-- Embedding of DatasetClient.get_cell
(src/vizier/engine/packages/pycell/client/dataset.py, lines 204-222): the
guard rejects row < 0 and row > len(rows) with ValueError, then subscripts
self.rows[row] — for row = len(rows) the guard passes and the subscript
raises an unhandled IndexError. -/
def DatasetClient.get_cell (client : DatasetClient) (column : ColRef) (row : Int) :
    Except PyErr PyVal :=
  if row < 0 ∨ row > Int.ofNat client.rows.length then Except.error PyErr.valueError
  else
    match client.rows.get? row.toNat with
    | some r => r.get_value client column
    | none => Except.error PyErr.indexError

/-- Concrete client for the create_dataset and rename_dataset witnesses. -/
def clientW : VizierDBClient :=
  { datasets := [("ds", 0)], dataobjects := [], source := "",
    descriptors := [], read := [], write := [], delete := none }

/-- Concrete datastore holding one dataset under identifier 0. -/
def storeW : Datastore := { datasets := [(0, ⟨[], []⟩)], counter := 1 }

/-- Concrete dataframe without columns or rows. -/
def dfW : DataFrame := ⟨[], [], []⟩

/-- Concrete repository for the delete_viztrail witness. -/
def repoW : OSViztrailRepository :=
  { base_path := "vt",
    viztrails := [("V1", ⟨"V1"⟩), ("V2", ⟨"V2"⟩)],
    viztrails_index := ["V1", "V2"],
    store_objects := ["vt/V1/properties", "vt/V1/branches", "vt/V2/properties"] }

/-- Concrete route elements for the config_routes witness. -/
def elementsW : List (List (String × String)) :=
  [[("packageId", "vizual"), ("commandId", "load"), ("queue", "q1")],
   [("packageId", "vizual"), ("commandId", "load"), ("queue", "q2")]]

/-- Concrete dataset metadata for the remove witness: two column annotations
(for columns 0 and 1), one row annotation and one cell annotation on column 0. -/
def metaW : DatasetMetadata :=
  { columns := [⟨"k1", PyVal.int 1, 0⟩, ⟨"k2", PyVal.int 2, 1⟩],
    rows := [⟨"k3", PyVal.int 3, 7⟩],
    cells := [⟨"k4", PyVal.int 4, 0, 7⟩] }

/-- Concrete dataset client with one column and one row for the get_cell
analysis. -/
def clientC10 : DatasetClient :=
  ⟨some 0, [⟨0, "A"⟩], [⟨0, [PyVal.str "v"]⟩]⟩

/-- Lookup after insertion at the inserted key. -/
theorem alookup_ainsert_self {κ α : Type} [DecidableEq κ] (m : List (κ × α))
    (k : κ) (v : α) : alookup (ainsert m k v) k = some v := by
  induction m with
  | nil => simp [ainsert, alookup]
  | cons p rest ih =>
    obtain ⟨k', v'⟩ := p
    by_cases h : k' = k
    · simp [ainsert, alookup, h]
    · simp [ainsert, alookup, h, ih]

/-- Lookup after insertion at a different key. -/
theorem alookup_ainsert_ne {κ α : Type} [DecidableEq κ] (m : List (κ × α))
    (k k' : κ) (v : α) (h : k' ≠ k) :
    alookup (ainsert m k v) k' = alookup m k' := by
  induction m with
  | nil => simp [ainsert, alookup, Ne.symm h]
  | cons p rest ih =>
    obtain ⟨k0, v0⟩ := p
    by_cases h0 : k0 = k
    · subst h0
      simp [ainsert, alookup, Ne.symm h]
    · simp [ainsert, alookup, h0, ih]

/-- Lookup after deletion at the deleted key. -/
theorem alookup_adelete_self {κ α : Type} [DecidableEq κ] (m : List (κ × α))
    (k : κ) : alookup (adelete m k) k = none := by
  induction m with
  | nil => rfl
  | cons p rest ih =>
    obtain ⟨k0, v0⟩ := p
    by_cases h0 : k0 = k
    · simp [adelete, h0, ih]
    · simp [adelete, alookup, h0, ih]

/-- Lookup after deletion at a different key. -/
theorem alookup_adelete_ne {κ α : Type} [DecidableEq κ] (m : List (κ × α))
    (k k' : κ) (h : k' ≠ k) :
    alookup (adelete m k) k' = alookup m k' := by
  induction m with
  | nil => rfl
  | cons p rest ih =>
    obtain ⟨k0, v0⟩ := p
    by_cases h0 : k0 = k
    · subst h0
      simp [adelete, alookup, Ne.symm h, ih]
    · simp [adelete, alookup, h0, ih]

/-- A successful lookup comes from a member of the association list. -/
theorem alookup_mem {κ α : Type} [DecidableEq κ] (m : List (κ × α)) (k : κ)
    (v : α) (h : alookup m k = some v) : (k, v) ∈ m := by
  induction m with
  | nil => simp [alookup] at h
  | cons p rest ih =>
    obtain ⟨k0, v0⟩ := p
    by_cases h0 : k0 = k
    · subst h0
      simp [alookup] at h
      simp [h]
    · simp [alookup, h0] at h
      exact List.mem_cons_of_mem _ (ih h)

/-- Lookup distributes over append when the key is found on the left. -/
theorem alookup_append_left {κ α : Type} [DecidableEq κ] (m m' : List (κ × α))
    (k : κ) (v : α) (h : alookup m k = some v) :
    alookup (m ++ m') k = some v := by
  induction m with
  | nil => simp [alookup] at h
  | cons p rest ih =>
    obtain ⟨k0, v0⟩ := p
    by_cases h0 : k0 = k
    · subst h0
      simp [alookup] at h ⊢
      exact h
    · simp [alookup, h0] at h ⊢
      exact ih h

/-- Lookup distributes over append when the key is absent on the left. -/
theorem alookup_append_right {κ α : Type} [DecidableEq κ] (m m' : List (κ × α))
    (k : κ) (h : alookup m k = none) :
    alookup (m ++ m') k = alookup m' k := by
  induction m with
  | nil => rfl
  | cons p rest ih =>
    obtain ⟨k0, v0⟩ := p
    by_cases h0 : k0 = k
    · simp [alookup, h0] at h
    · simp [alookup, h0] at h ⊢
      exact ih h

/-- C1: the claim states that deserialize.DATASET inverts
serialize.DATASET_DESCRIPTOR. It does not: the serializer emits column
dictionaries without a data-type entry and the deserializer both subscripts
that missing entry and passes data_type to a DatasetColumn constructor that
does not accept it, so for every descriptor with at least one column the
round trip raises instead of returning an equal descriptor. -/
theorem c1_dataset_roundtrip_raises (d : DatasetDescriptor) (n : String)
    (h : d.columns ≠ []) :
    ∃ e, DATASET (DATASET_DESCRIPTOR d n) = Except.error e := by
  obtain ⟨ident, cols, rc⟩ := d
  cases cols with
  | nil => exact absurd rfl h
  | cons c cs => exact ⟨PyErr.keyError, rfl⟩

/-- Witness for C1 at a concrete one-column descriptor. -/
theorem c1_dataset_roundtrip_raises_witness :
    (DatasetDescriptor.mk "DS" [⟨0, "A"⟩] 1).columns ≠ [] ∧
    ∃ e, DATASET (DATASET_DESCRIPTOR ⟨"DS", [⟨0, "A"⟩], 1⟩ "ds") = Except.error e :=
  ⟨by decide, c1_dataset_roundtrip_raises ⟨"DS", [⟨0, "A"⟩], 1⟩ "ds" (by decide)⟩

/-- C2: the claim states that UrlFactory.get_dataset returns
base_url + /projects/ + project_id + /datasets/ + dataset_id and that
download_dataset appends /csv to it. Both bodies reference the unbound name
proejct_id, so every call raises NameError and no url is ever returned. -/
theorem c2_dataset_urls_raise_nameerror :
    (UrlFactory.init "http://localhost/vizier-db/api/v1" none).get_dataset "P" "D"
      = Except.error PyErr.nameError
    ∧ (UrlFactory.init "http://localhost/vizier-db/api/v1" none).download_dataset "P" "D"
      = Except.error PyErr.nameError :=
  ⟨rfl, rfl⟩

/-- C3: when the dataset mapping already binds the name (case-insensitively),
VizierDBClient.create_dataset raises ValueError synchronously and leaves the
name-to-identifier mapping and the datastore unchanged. -/
theorem c3_create_dataset_duplicate (c : VizierDBClient) (store : Datastore)
    (name : String) (df : DataFrame)
    (h : c.has_dataset_identifier name = true) :
    (c.create_dataset store name df).2.2 = Except.error PyErr.valueError
    ∧ (c.create_dataset store name df).1.datasets = c.datasets
    ∧ (c.create_dataset store name df).2.1 = store := by
  unfold VizierDBClient.create_dataset
  simp [h]

/-- Witness for C3 at a concrete client whose mapping binds ds. -/
theorem c3_create_dataset_duplicate_witness :
    (clientW.create_dataset storeW "ds" dfW).2.2 = Except.error PyErr.valueError
    ∧ (clientW.create_dataset storeW "ds" dfW).1.datasets = clientW.datasets
    ∧ (clientW.create_dataset storeW "ds" dfW).2.1 = storeW :=
  c3_create_dataset_duplicate clientW storeW "ds" dfW (by decide)

/-- C7: over a manifest holding exactly the two entries (P1, API1, 80, ID1)
and (P2, API2, 81, ID2) with distinct project identifiers, the container
project cache lists two projects and get_project returns the handle with the
matching container endpoint fields. -/
theorem c7_container_cache (P1 P2 API1 API2 ID1 ID2 : String) (h : P1 ≠ P2) :
    (ContainerProjectCache.init
        [⟨P1, API1, 80, ID1⟩, ⟨P2, API2, 81, ID2⟩]).list_projects.length = 2
    ∧ (ContainerProjectCache.init
        [⟨P1, API1, 80, ID1⟩, ⟨P2, API2, 81, ID2⟩]).get_project P1
      = some ⟨P1, API1, 80, ID1⟩
    ∧ (ContainerProjectCache.init
        [⟨P1, API1, 80, ID1⟩, ⟨P2, API2, 81, ID2⟩]).get_project P2
      = some ⟨P2, API2, 81, ID2⟩ := by
  refine ⟨rfl, ?_, ?_⟩
  · simp [ContainerProjectCache.init, ContainerProjectCache.get_project, List.find?]
  · simp [ContainerProjectCache.init, ContainerProjectCache.get_project, List.find?,
      Ne.symm h, h]

/-- Witness for C7 at concrete manifest entries. -/
theorem c7_container_cache_witness :
    (ContainerProjectCache.init
        [⟨"P1", "API1", 80, "ID1"⟩, ⟨"P2", "API2", 81, "ID2"⟩]).list_projects.length = 2
    ∧ (ContainerProjectCache.init
        [⟨"P1", "API1", 80, "ID1"⟩, ⟨"P2", "API2", 81, "ID2"⟩]).get_project "P1"
      = some ⟨"P1", "API1", 80, "ID1"⟩
    ∧ (ContainerProjectCache.init
        [⟨"P1", "API1", 80, "ID1"⟩, ⟨"P2", "API2", 81, "ID2"⟩]).get_project "P2"
      = some ⟨"P2", "API2", 81, "ID2"⟩ :=
  c7_container_cache "P1" "P2" "API1" "API2" "ID1" "ID2" (by decide)

/-- C10: the claim states that get_cell raises ValueError for every row index
outside 0 ≤ row < len(rows). The guard tests row > len(rows), so at
row = len(rows) (here 1, with one loaded row) the guard passes and the row
subscript raises an unhandled IndexError; the neighbouring out-of-range
indices -1 and 2 do raise ValueError. -/
theorem c10_get_cell_off_by_one :
    clientC10.get_cell (ColRef.int 0) 1 = Except.error PyErr.indexError
    ∧ clientC10.get_cell (ColRef.int 0) 2 = Except.error PyErr.valueError
    ∧ clientC10.get_cell (ColRef.int 0) (-1) = Except.error PyErr.valueError
    ∧ clientC10.get_cell (ColRef.int 0) 0 = Except.ok (PyVal.str "v") := by
  refine ⟨rfl, rfl, rfl, rfl⟩

/-- The deleted key is gone from the key list of the association list. -/
theorem adelete_map_fst_not_mem {κ α : Type} [DecidableEq κ] (m : List (κ × α))
    (k : κ) : k ∉ (adelete m k).map Prod.fst := by
  induction m with
  | nil => simp [adelete]
  | cons p rest ih =>
    by_cases h : p.1 = k
    · simpa [adelete, h] using ih
    · simp only [adelete, if_neg h, List.map_cons, List.mem_cons]
      rintro (he | he)
      · exact h he.symm
      · exact ih he

/-- C5: delete_viztrail returns True exactly when the identifier is present;
on True the viztrail's persisted objects are removed recursively and its
identifier leaves both the in-memory map and the persisted index (which stays
the key list of the map); on False the repository is unchanged. -/
theorem c5_delete_viztrail (repo : OSViztrailRepository) (viztrail_id : String) :
    ((repo.delete_viztrail viztrail_id).1 = true
      ↔ acontains repo.viztrails viztrail_id = true)
    ∧ ((repo.delete_viztrail viztrail_id).1 = true →
        acontains (repo.delete_viztrail viztrail_id).2.viztrails viztrail_id = false
        ∧ viztrail_id ∉ (repo.delete_viztrail viztrail_id).2.viztrails_index
        ∧ (repo.delete_viztrail viztrail_id).2.viztrails_index
            = ((repo.delete_viztrail viztrail_id).2.viztrails).map Prod.fst
        ∧ ∀ pth ∈ (repo.delete_viztrail viztrail_id).2.store_objects,
            ¬ (repo.base_path ++ "/" ++ viztrail_id ++ "/").isPrefixOf pth)
    ∧ ((repo.delete_viztrail viztrail_id).1 = false →
        (repo.delete_viztrail viztrail_id).2 = repo) := by
  by_cases h : acontains repo.viztrails viztrail_id = true
  · refine ⟨by simp [OSViztrailRepository.delete_viztrail, h], fun _ => ⟨?_, ?_, ?_, ?_⟩,
      by simp [OSViztrailRepository.delete_viztrail, h]⟩
    · have h' : (alookup repo.viztrails viztrail_id).isSome = true := h
      simp [OSViztrailRepository.delete_viztrail, acontains, h', alookup_adelete_self]
    · simp only [OSViztrailRepository.delete_viztrail, h, if_true]
      exact adelete_map_fst_not_mem repo.viztrails viztrail_id
    · simp [OSViztrailRepository.delete_viztrail, h]
    · intro pth hmem
      simp only [OSViztrailRepository.delete_viztrail, h, if_true,
        deleteViztrailFolder] at hmem
      have := List.mem_filter.mp hmem
      simpa using this.2
  · have hf : acontains repo.viztrails viztrail_id = false := by
      cases hb : acontains repo.viztrails viztrail_id
      · rfl
      · exact absurd hb h
    refine ⟨by simp [OSViztrailRepository.delete_viztrail, hf], fun ht => ?_,
      fun _ => by simp [OSViztrailRepository.delete_viztrail, hf]⟩
    simp [OSViztrailRepository.delete_viztrail, hf] at ht

/-- Witness for C5 at a concrete repository holding viztrails V1 and V2. -/
theorem c5_delete_viztrail_witness :
    (((repoW.delete_viztrail "V1").1 = true
      ↔ acontains repoW.viztrails "V1" = true)
    ∧ ((repoW.delete_viztrail "V1").1 = true →
        acontains (repoW.delete_viztrail "V1").2.viztrails "V1" = false
        ∧ "V1" ∉ (repoW.delete_viztrail "V1").2.viztrails_index
        ∧ (repoW.delete_viztrail "V1").2.viztrails_index
            = ((repoW.delete_viztrail "V1").2.viztrails).map Prod.fst
        ∧ ∀ pth ∈ (repoW.delete_viztrail "V1").2.store_objects,
            ¬ (repoW.base_path ++ "/" ++ "V1" ++ "/").isPrefixOf pth)
    ∧ ((repoW.delete_viztrail "V1").1 = false →
        (repoW.delete_viztrail "V1").2 = repoW)) :=
  c5_delete_viztrail repoW "V1"

/-- A successful rename produces a success result and rebinds the identifier:
the dataset map after rename_dataset is the old map with the lowercased old
name deleted and the lowercased new name bound to the old identifier. -/
theorem rename_dataset_spec (c : VizierDBClient) (name new_name : String) (i : Nat)
    (h1 : alookup c.datasets (pyLower name) = some i)
    (h2 : acontains c.datasets (pyLower new_name) = false)
    (h3 : is_valid_name new_name = true) :
    (c.rename_dataset name new_name).2 = Except.ok ()
    ∧ (c.rename_dataset name new_name).1.datasets
      = ainsert (adelete c.datasets (pyLower name)) (pyLower new_name) i := by
  have h2b : (alookup c.datasets (pyLower new_name)).isSome = false := h2
  by_cases hw : (pyLower name) ∈ c.write <;>
    by_cases hw2 : (pyLower name) ∈ sinsert c.write (pyLower new_name) <;>
      simp [VizierDBClient.rename_dataset, VizierDBClient.drop_dataset,
        VizierDBClient.remove_dataset_identifier, VizierDBClient.set_dataset_identifier,
        VizierDBClient.has_dataset_identifier, acontains, hw, hw2, h1, h2b, h3]

/-- C8: for a client whose map binds name to identifier i, with new_name
unbound and valid, rename_dataset succeeds, get_dataset_identifier(new_name)
returns i and get_dataset_identifier(name) raises ValueError. -/
theorem c8_rename_dataset (c : VizierDBClient) (name new_name : String) (i : Nat)
    (h1 : alookup c.datasets (pyLower name) = some i)
    (h2 : c.has_dataset_identifier new_name = false)
    (h3 : is_valid_name new_name = true) :
    (c.rename_dataset name new_name).2 = Except.ok ()
    ∧ (c.rename_dataset name new_name).1.get_dataset_identifier new_name = Except.ok i
    ∧ (c.rename_dataset name new_name).1.get_dataset_identifier name
        = Except.error PyErr.valueError := by
  have h2' : acontains c.datasets (pyLower new_name) = false := h2
  have hne : pyLower name ≠ pyLower new_name := by
    intro he
    have hx : (alookup c.datasets (pyLower new_name)).isSome = false := h2'
    rw [← he, h1] at hx
    simp at hx
  obtain ⟨hres, hd⟩ := rename_dataset_spec c name new_name i h1 h2' h3
  refine ⟨hres, ?_, ?_⟩
  · unfold VizierDBClient.get_dataset_identifier
    rw [hd, alookup_ainsert_self]
  · unfold VizierDBClient.get_dataset_identifier
    rw [hd, alookup_ainsert_ne _ _ _ _ hne, alookup_adelete_self]

/-- Witness for C8: in a client binding ds to 0, renaming ds to ds2 moves the
binding and unbinds the old name. -/
theorem c8_rename_dataset_witness :
    (clientW.rename_dataset "ds" "ds2").2 = Except.ok ()
    ∧ (clientW.rename_dataset "ds" "ds2").1.get_dataset_identifier "ds2" = Except.ok 0
    ∧ (clientW.rename_dataset "ds" "ds2").1.get_dataset_identifier "ds"
        = Except.error PyErr.valueError :=
  c8_rename_dataset clientW "ds" "ds2" 0 (by decide) (by decide) (by decide)

/-- Reading the nested routing dictionary after one assignment: the assigned
pair is found, everything else is unchanged. -/
theorem routes_get_routes_set (routes : RoutesDict) (p0 c0 q0 p c : String) :
    routes_get (routes_set routes p0 c0 q0) p c
      = if p0 = p ∧ c0 = c then some q0 else routes_get routes p c := by
  unfold routes_get routes_set
  by_cases hp : p0 = p
  · subst hp
    rw [alookup_ainsert_self]
    by_cases hc : c0 = c
    · subst hc
      simp [alookup_ainsert_self]
    · simp only [Option.some_bind]
      rw [alookup_ainsert_ne _ _ _ _ (Ne.symm hc)]
      simp only [hc, and_false, if_false]
      cases hr : alookup routes p0 <;> simp [hr, alookup]
  · rw [alookup_ainsert_ne _ _ _ _ (Ne.symm hp)]
    simp [hp]

/-- Running the config_routes loop over elements that all carry the three
route keys succeeds, and a lookup in the result is the queue of the last
matching element, falling back to the accumulator. -/
theorem config_routes_loop_spec (elements : List (List (String × String)))
    (routes : RoutesDict) (h : ∀ rt ∈ elements, hasRouteKeys rt) :
    ∃ r, config_routes_loop routes elements = Except.ok r ∧
      ∀ p c, routes_get r p c
        = orElseOpt (lastQueue elements p c) (routes_get routes p c) := by
  induction elements generalizing routes with
  | nil => exact ⟨routes, rfl, fun p c => by simp [lastQueue, orElseOpt]⟩
  | cons rt rest ih =>
    obtain ⟨hp, hc, hq⟩ := h rt (List.mem_cons_self rt rest)
    obtain ⟨p0, hp0⟩ := Option.isSome_iff_exists.mp hp
    obtain ⟨c0, hc0⟩ := Option.isSome_iff_exists.mp hc
    obtain ⟨q0, hq0⟩ := Option.isSome_iff_exists.mp hq
    have hrest : ∀ r ∈ rest, hasRouteKeys r :=
      fun r hr => h r (List.mem_cons_of_mem rt hr)
    obtain ⟨r, hr, hget⟩ := ih (routes_set routes p0 c0 q0) hrest
    refine ⟨r, ?_, ?_⟩
    · simp [config_routes_loop, hp0, hc0, hq0, hr]
    · intro p c
      rw [hget p c, routes_get_routes_set]
      cases hl : lastQueue rest p c with
      | some q => simp [lastQueue, hl, hp0, hc0, hq0, orElseOpt]
      | none =>
        by_cases hpc : p0 = p ∧ c0 = c
        · simp [lastQueue, hl, hp0, hc0, hq0, hpc, orElseOpt]
        · simp [lastQueue, hl, hp0, hc0, hq0, hpc, orElseOpt]

/-- If some element misses one of the three route keys, the loop raises
ValueError. -/
theorem config_routes_loop_err (elements : List (List (String × String)))
    (routes : RoutesDict) (h : ∃ rt ∈ elements, ¬ hasRouteKeys rt) :
    config_routes_loop routes elements = Except.error PyErr.valueError := by
  induction elements generalizing routes with
  | nil => simp at h
  | cons rt rest ih =>
    obtain ⟨rt', hmem, hbad⟩ := h
    rcases List.mem_cons.mp hmem with rfl | hmem'
    · cases hP : alookup rt' ROUTE_PACKAGE with
      | none => simp [config_routes_loop, hP]
      | some p0 =>
        cases hC : alookup rt' ROUTE_COMMAND with
        | none => simp [config_routes_loop, hP, hC]
        | some c0 =>
          cases hQ : alookup rt' ROUTE_QUEUE with
          | none => simp [config_routes_loop, hP, hC, hQ]
          | some q0 =>
            exact absurd ⟨by simp [hP], by simp [hC], by simp [hQ]⟩ hbad
    · cases hP : alookup rt ROUTE_PACKAGE with
      | none => simp [config_routes_loop, hP]
      | some p0 =>
        cases hC : alookup rt ROUTE_COMMAND with
        | none => simp [config_routes_loop, hP, hC]
        | some c0 =>
          cases hQ : alookup rt ROUTE_QUEUE with
          | none => simp [config_routes_loop, hP, hC, hQ]
          | some q0 =>
            simp only [config_routes_loop, hP, hC, hQ]
            exact ih _ ⟨rt', hmem', hbad⟩

/-- C6: when every element carries packageId, commandId and queue,
config_routes returns the nested dictionary whose entry at (packageId,
commandId) is the queue of the last matching element; when any element lacks
one of the three keys, it raises ValueError. -/
theorem c6_config_routes (elements : List (List (String × String))) :
    ((∀ rt ∈ elements, hasRouteKeys rt) →
      ∃ r, config_routes elements = Except.ok r ∧
        ∀ p c, routes_get r p c = lastQueue elements p c)
    ∧ ((∃ rt ∈ elements, ¬ hasRouteKeys rt) →
      config_routes elements = Except.error PyErr.valueError) := by
  constructor
  · intro h
    obtain ⟨r, hr, hget⟩ := config_routes_loop_spec elements [] h
    refine ⟨r, hr, fun p c => ?_⟩
    rw [hget p c]
    cases lastQueue elements p c <;> simp [orElseOpt, routes_get, alookup]
  · intro h
    exact config_routes_loop_err elements [] h

/-- Witness for C6 at two elements targeting the same command, where the
later queue overwrites the earlier one. -/
theorem c6_config_routes_witness :
    config_routes elementsW = Except.ok [("vizual", [("load", "q2")])]
    ∧ routes_get [("vizual", [("load", "q2")])] "vizual" "load"
        = lastQueue elementsW "vizual" "load"
    ∧ lastQueue elementsW "vizual" "load" = some "q2" := by
  obtain ⟨r, hr, hget⟩ := (c6_config_routes elementsW).1 (by decide)
  have hconc : config_routes elementsW = Except.ok [("vizual", [("load", "q2")])] := by
    rfl
  have hreq : r = [("vizual", [("load", "q2")])] :=
    Except.ok.inj (hr.symm.trans hconc)
  refine ⟨hconc, ?_, by decide⟩
  have := hget "vizual" "load"
  rw [hreq] at this
  exact this

/-- Candidate indices start at the offset. -/
theorem candAux_ge {α : Type} (p : α → Bool) (xs : List α) (j : Nat) :
    ∀ i ∈ candAux p xs j, j ≤ i := by
  induction xs generalizing j with
  | nil => intro i hi; simp [candAux] at hi
  | cons x rest ih =>
    intro i hi
    by_cases h : p x
    · simp only [candAux, h, if_true] at hi
      rcases List.mem_cons.mp hi with rfl | hi'
      · exact Nat.le_refl i
      · exact Nat.le_of_succ_le (ih (j + 1) i hi')
    · simp only [candAux, h, if_false] at hi
      exact Nat.le_of_succ_le (ih (j + 1) i hi)

/-- Candidate indices stay below offset plus list length. -/
theorem candAux_lt {α : Type} (p : α → Bool) (xs : List α) (j : Nat) :
    ∀ i ∈ candAux p xs j, i < j + xs.length := by
  induction xs generalizing j with
  | nil => intro i hi; simp [candAux] at hi
  | cons x rest ih =>
    intro i hi
    by_cases h : p x
    · simp only [candAux, h, if_true] at hi
      rcases List.mem_cons.mp hi with rfl | hi'
      · simp
      · have := ih (j + 1) i hi'
        simp only [List.length_cons]
        omega
    · simp only [candAux, h, if_false] at hi
      have := ih (j + 1) i hi
      simp only [List.length_cons]
      omega

/-- Candidate indices are strictly increasing. -/
theorem candAux_pairwise {α : Type} (p : α → Bool) (xs : List α) (j : Nat) :
    List.Pairwise (· < ·) (candAux p xs j) := by
  induction xs generalizing j with
  | nil => simp [candAux]
  | cons x rest ih =>
    by_cases h : p x
    · simp only [candAux, h, if_true]
      refine List.Pairwise.cons ?_ (ih (j + 1))
      intro i hi
      have := candAux_ge p rest (j + 1) i hi
      omega
    · simp only [candAux, h, if_false]
      exact ih (j + 1)

/-- The deletion loop skips a head element lying below every index. -/
theorem delLoop_cons {α : Type} (x : α) (xs : List α) (idxs : List Nat) (j : Nat)
    (hge : ∀ i ∈ idxs, j + 1 ≤ i) (hp : List.Pairwise (· < ·) idxs) :
    delLoop (x :: xs) idxs j = x :: delLoop xs idxs (j + 1) := by
  induction idxs generalizing x xs j with
  | nil => rfl
  | cons i rest ih =>
    have hi : j + 1 ≤ i := hge i (List.mem_cons_self _ _)
    have hrest : ∀ i' ∈ rest, (j + 1) + 1 ≤ i' := by
      intro i' hi'
      have hlt := (List.pairwise_cons.mp hp).1 i' hi'
      omega
    have hp' := (List.pairwise_cons.mp hp).2
    have he : i - j = (i - (j + 1)) + 1 := by omega
    rw [delLoop, he, List.eraseIdx_cons_succ, ih _ _ _ hrest hp']
    conv_rhs => rw [delLoop]

/-- Deleting exactly the candidate indices of a predicate is filtering the
predicate out. -/
theorem delLoop_candAux {α : Type} (p : α → Bool) (xs : List α) (j : Nat) :
    delLoop xs (candAux p xs j) j = xs.filter (fun a => !(p a)) := by
  induction xs generalizing j with
  | nil => rfl
  | cons x rest ih =>
    by_cases h : p x
    · simp only [candAux, h, if_true]
      rw [delLoop, Nat.sub_self, List.eraseIdx_cons_zero, ih (j + 1)]
      simp [List.filter_cons, h]
    · have hcand : candAux p (x :: rest) j = candAux p rest (j + 1) := by
        simp [candAux, h]
      rw [hcand,
        delLoop_cons x rest _ j (candAux_ge p rest (j + 1)) (candAux_pairwise p rest (j + 1)),
        ih (j + 1)]
      simp [List.filter_cons, h]

/-- With a filter that accepts everything, the candidate index list passes
through unchanged (all candidates are in range). -/
theorem delIdxFilter_eq_self {α : Type} (xs : List α) (q : α → Bool)
    (idxs : List Nat) (hq : ∀ a, q a = true) (hlt : ∀ i ∈ idxs, i < xs.length) :
    delIdxFilter xs q idxs = idxs := by
  unfold delIdxFilter
  apply List.filter_eq_self.mpr
  intro i hi
  cases hx : xs.get? i with
  | none =>
    rw [List.get?_eq_none] at hx
    exact absurd (hlt i hi) (Nat.not_lt.mpr hx)
  | some a => simp [hx, hq a]

/-- Removing with a trivial key/value filter drops exactly the elements that
match the resource predicate. -/
theorem removeFromList_allq {α : Type} (p q : α → Bool) (xs : List α)
    (hq : ∀ a, q a = true) :
    removeFromList p q xs = xs.filter (fun a => !(p a)) := by
  unfold removeFromList
  rw [delIdxFilter_eq_self xs q _ hq ?bound]
  · exact delLoop_candAux p xs 0
  case bound =>
    intro i hi
    have := candAux_lt p xs 0 i hi
    omega

/-- Filtering for a predicate after filtering it out yields nothing. -/
theorem filter_not_self {α : Type} (p : α → Bool) (xs : List α) :
    (xs.filter (fun a => !(p a))).filter p = [] := by
  induction xs with
  | nil => rfl
  | cons x rest ih =>
    by_cases h : p x <;> simp [List.filter_cons, h, ih]

/-- A filter that implies the first filter is unaffected by it. -/
theorem filter_filter_of_imp {α : Type} (p q : α → Bool) (xs : List α)
    (himp : ∀ a, q a = true → p a = true) :
    (xs.filter p).filter q = xs.filter q := by
  induction xs with
  | nil => rfl
  | cons x rest ih =>
    by_cases hq : q x
    · have hp := himp x hq
      simp [List.filter_cons, hp, hq, ih]
    · by_cases hp : p x <;> simp [List.filter_cons, hp, hq, ih]

/-- C9: removing with only a column identifier empties for_column of that
column and leaves every other column's annotations and all row and cell
annotations (including cells of that column) unchanged. -/
theorem c9_remove_column_annotations (m : DatasetMetadata) (cid : Int) :
    ∃ m', m.remove none none (some cid) none = Except.ok m'
      ∧ m'.for_column cid = []
      ∧ (∀ cid2, cid2 ≠ cid → m'.for_column cid2 = m.for_column cid2)
      ∧ m'.rows = m.rows
      ∧ m'.cells = m.cells := by
  refine ⟨_, rfl, ?_, ?_, rfl, rfl⟩
  · show List.filter _ (removeFromList _ _ m.columns) = []
    rw [removeFromList_allq (fun a => decide (a.column_id = cid))
      (fun a => annoFilter none none a.key a.value) m.columns (fun a => rfl)]
    exact filter_not_self _ _
  · intro cid2 hne
    show List.filter _ (removeFromList _ _ m.columns) = List.filter _ m.columns
    rw [removeFromList_allq (fun a => decide (a.column_id = cid))
      (fun a => annoFilter none none a.key a.value) m.columns (fun a => rfl)]
    apply filter_filter_of_imp
    intro a ha
    simp only [decide_eq_true_eq] at ha
    simp [ha, hne]

/-- Witness for C9 at a concrete metadata object: removing column 0 deletes
its annotation, keeps column 1's annotation, the row annotation and the cell
annotation on column 0. -/
theorem c9_remove_column_annotations_witness :
    DatasetMetadata.remove metaW none none (some 0) none
      = Except.ok ⟨[⟨"k2", PyVal.int 2, 1⟩], [⟨"k3", PyVal.int 3, 7⟩],
          [⟨"k4", PyVal.int 4, 0, 7⟩]⟩
    ∧ DatasetMetadata.for_column ⟨[⟨"k2", PyVal.int 2, 1⟩], [⟨"k3", PyVal.int 3, 7⟩],
          [⟨"k4", PyVal.int 4, 0, 7⟩]⟩ 0 = []
    ∧ DatasetMetadata.for_column ⟨[⟨"k2", PyVal.int 2, 1⟩], [⟨"k3", PyVal.int 3, 7⟩],
          [⟨"k4", PyVal.int 4, 0, 7⟩]⟩ 1 = metaW.for_column 1 := by
  obtain ⟨m', h1, h2, h3, h4, h5⟩ := c9_remove_column_annotations metaW 0
  have hconc : DatasetMetadata.remove metaW none none (some 0) none
      = Except.ok ⟨[⟨"k2", PyVal.int 2, 1⟩], [⟨"k3", PyVal.int 3, 7⟩],
          [⟨"k4", PyVal.int 4, 0, 7⟩]⟩ := by rfl
  have hm : m' = ⟨[⟨"k2", PyVal.int 2, 1⟩], [⟨"k3", PyVal.int 3, 7⟩],
      [⟨"k4", PyVal.int 4, 0, 7⟩]⟩ :=
    Except.ok.inj (h1.symm.trans hconc)
  subst hm
  exact ⟨hconc, h2, h3 1 (by decide)⟩

/-- C4: under a well-formed datastore, if name is bound to i and the
datastore holds dataset i, then a successful update_dataset rebinds name to
the identifier of a dataset newly created in the datastore: the new
identifier is the fresh counter value, distinct from i, absent from the old
datastore and present in the new one, while dataset i itself is unchanged. -/
theorem c4_update_dataset_fresh (c : VizierDBClient) (store : Datastore)
    (name : String) (df : DataFrame) (i : Nat) (sd : StoredDataset)
    (st' : VizierDBClient) (store'' : Datastore) (v : Nat)
    (h1 : alookup c.datasets (pyLower name) = some i)
    (h2 : store.get_dataset i = some sd)
    (hwf : store.wf)
    (hok : c.update_dataset store name df = (st', store'', Except.ok v)) :
    v = store.counter
    ∧ alookup st'.datasets (pyLower name) = some v
    ∧ v ≠ i
    ∧ store.get_dataset v = none
    ∧ (store''.get_dataset v).isSome = true
    ∧ store''.get_dataset i = some sd := by
  have h2' : alookup store.datasets i = some sd := h2
  have hmem : (i, sd) ∈ store.datasets := alookup_mem _ _ _ h2'
  have hlt : i < store.counter := hwf (i, sd) hmem
  have hnone : alookup store.datasets store.counter = none := by
    cases hx : alookup store.datasets store.counter with
    | none => rfl
    | some y =>
      have := hwf (store.counter, y) (alookup_mem _ _ _ hx)
      omega
  simp only [VizierDBClient.update_dataset, h1, h2] at hok
  cases hcols : update_dataset_columns df.dtypes (sd.max_column_id + 1) [] 0 df.columns with
  | error e =>
    rw [hcols] at hok
    exact absurd hok (by simp [Prod.ext_iff])
  | ok columns =>
    rw [hcols] at hok
    cases hrows : update_dataset_rows (sd.max_row_id + 1) [] df.rows with
    | error e =>
      rw [hrows] at hok
      exact absurd hok (by simp [Prod.ext_iff])
    | ok rows =>
      rw [hrows] at hok
      simp only [Datastore.create_dataset, VizierDBClient.set_dataset_identifier,
        Prod.mk.injEq, Except.ok.injEq] at hok
      obtain ⟨hst, hstore, hv⟩ := hok
      have hds : st'.datasets = ainsert c.datasets (pyLower name) store.counter := by
        rw [← hst]
      have hsd : store''.datasets = store.datasets ++ [(store.counter, ⟨columns, rows⟩)] := by
        rw [← hstore]
      refine ⟨hv.symm, ?_, by omega, ?_, ?_, ?_⟩
      · rw [hds, alookup_ainsert_self, hv]
      · show alookup store.datasets v = none
        rw [← hv]
        exact hnone
      · show (alookup store''.datasets v).isSome = true
        rw [hsd, ← hv, alookup_append_right _ _ _ hnone]
        simp [alookup]
      · show alookup store''.datasets i = some sd
        rw [hsd]
        exact alookup_append_left _ _ _ _ h2'

/-- Witness for C4 at a concrete state: ds bound to 0, datastore holding
dataset 0 with counter 1, an empty dataframe; the update rebinds ds to the
fresh identifier 1 and leaves dataset 0 in place. -/
theorem c4_update_dataset_fresh_witness :
    (1 : Nat) = storeW.counter
    ∧ alookup (clientW.update_dataset storeW "ds" dfW).1.datasets (pyLower "ds") = some 1
    ∧ (1 : Nat) ≠ 0
    ∧ storeW.get_dataset 1 = none
    ∧ ((clientW.update_dataset storeW "ds" dfW).2.1.get_dataset 1).isSome = true
    ∧ (clientW.update_dataset storeW "ds" dfW).2.1.get_dataset 0 = some ⟨[], []⟩ :=
  c4_update_dataset_fresh clientW storeW "ds" dfW 0 ⟨[], []⟩
    (clientW.update_dataset storeW "ds" dfW).1
    (clientW.update_dataset storeW "ds" dfW).2.1 1
    (by decide) (by decide)
    (by
      intro p hp
      have hp0 : p = (0, (⟨[], []⟩ : StoredDataset)) := by
        simpa [storeW] using hp
      rw [hp0]
      decide)
    rfl
